import Mathlib

/-!
# Verification of the kaggle-vscode-zrok tunnel tooling

Shallow embedding of the Zrok API client (`src/zrok_api.py`, with the
legacy near-duplicate in `src/utils.py` where a claim targets it) and of
the local connection helper (`src/local/connect.py`).  Python strings are
modelled as Lean `String`s; Python string methods (`strip`, `startswith`,
`endswith`, `in`, `lower`, `split('\n')`) are given explicit executable
models over the underlying character lists.  Fallible Python code is
modelled with `Except`/`Option`; subprocess and HTTP effects are
parameters of the embedded functions (the outcome each attempt would
observe), so the control flow of the Python source is reproduced exactly.
-/

namespace KaggleZrok

/-! ## Python string primitives -/

/-- Whitespace characters removed by Python `str.strip()` with no argument. -/
def pyWsChar (c : Char) : Bool :=
  c = ' ' || c = '\t' || c = '\n' || c = '\r' || c = '\x0b' || c = '\x0c'

/-- Python `str.strip()`: drop leading and trailing whitespace. -/
def pyStrip (s : String) : String :=
  String.mk (((s.data.dropWhile pyWsChar).reverse.dropWhile pyWsChar).reverse)

/-- Python `s.startswith(p)`. -/
def pyStartswith (s p : String) : Bool := p.data.isPrefixOf s.data

/-- Python `s.endswith(p)`. -/
def pyEndswith (s p : String) : Bool := p.data.isSuffixOf s.data

/-- Substring search: does `needle` occur as a contiguous sublist of `hay`? -/
def listInfixOf (needle : List Char) : List Char → Bool
  | [] => needle.isPrefixOf []
  | c :: cs => needle.isPrefixOf (c :: cs) || listInfixOf needle cs

/-- Python `sub in s` (substring containment). -/
def pyIn (s sub : String) : Bool := listInfixOf sub.data s.data

/-- Lower-case one character (ASCII range; the identifiers this code
lowers are ASCII). -/
def pyCharLower (c : Char) : Char :=
  if 65 ≤ c.toNat ∧ c.toNat ≤ 90 then Char.ofNat (c.toNat + 32) else c

/-- Python `str.lower()` (ASCII inputs in this code base). -/
def pyLower (s : String) : String := String.mk (s.data.map pyCharLower)

/-- Python `a or b` for strings: `a` when truthy (non-empty), else `b`. -/
def pyOrStr (a b : String) : String := if a = "" then b else a

/-- Split a character list on newline characters. -/
def splitNLChars : List Char → List (List Char)
  | [] => [[]]
  | c :: rest =>
    if c = '\n' then [] :: splitNLChars rest
    else
      match splitNLChars rest with
      | [] => [[c]]
      | g :: gs => (c :: g) :: gs

/-- Python `s.split('\n')`. -/
def pySplitNL (s : String) : List String := (splitNLChars s.data).map String.mk

/-- Join character lists with newline characters. -/
def joinNLChars : List (List Char) → List Char
  | [] => []
  | [g] => g
  | g :: gs => g ++ '\n' :: joinNLChars gs

/-- Python `'\n'.join(ls)`. -/
def pyJoinNL (ls : List String) : String := String.mk (joinNLChars (ls.map String.data))

/-! ## C3 — client construction (`Zrok.__init__`, src/zrok_api.py:39-53,
identical check in src/utils.py:31-35)

```python
if not token or (token.startswith('<') and token.endswith('>')):
    raise ValueError("Please provide your actual zrok token from https://zrok.io")
self.token = token
self.name = name
```
The constructor body performs no HTTP request; the `netCalls` component
records the (empty) list of network calls it issues. -/

structure ClientState where
  token : String
  name : String
  deriving Repr, DecidableEq

/-- Result of running `Zrok.__init__`: either a `ValueError` (configuration
error) or the constructed client, together with the network calls made. -/
def zrokInit (token : String) (name : String) :
    Except String ClientState × List String :=
  if token = "" || (pyStartswith token "<" && pyEndswith token ">") then
    (.error "Please provide your actual zrok token from https://zrok.io", [])
  else
    (.ok ⟨token, name⟩, [])

/-- C3: a credential that is empty or a bracket-delimited placeholder
(`<...>`) is rejected at construction time with a configuration error and
zero network calls; any other credential constructs a client storing the
token and name, also with zero network calls. -/
theorem construction_validates_placeholder_tokens :
    (∀ token name : String,
      (token = "" ∨ (pyStartswith token "<" = true ∧ pyEndswith token ">" = true)) →
        ∃ msg, zrokInit token name = (.error msg, [])) ∧
    (∀ token name : String,
      token ≠ "" → ¬(pyStartswith token "<" = true ∧ pyEndswith token ">" = true) →
        zrokInit token name = (.ok ⟨token, name⟩, [])) := by
  constructor
  · intro token name h
    refine ⟨"Please provide your actual zrok token from https://zrok.io", ?_⟩
    unfold zrokInit
    rcases h with h | ⟨h1, h2⟩
    · simp [h]
    · simp [h1, h2]
  · intro token name h1 h2
    unfold zrokInit
    have hcond : (token = "" || (pyStartswith token "<" && pyEndswith token ">")) = false := by
      simp only [Bool.or_eq_false_iff, Bool.and_eq_false_iff, decide_eq_false_iff_not]
      refine ⟨h1, ?_⟩
      by_cases hs : pyStartswith token "<" = true
      · right
        rcases Bool.eq_false_or_eq_true (pyEndswith token ">") with he | he
        · exact absurd ⟨hs, he⟩ h2
        · exact he
      · left
        simpa using hs
    simp [hcond]

/-- Witness for C3 at the placeholder `"<TOKEN>"` and at a real token. -/
theorem construction_validates_placeholder_tokens_witness :
    (∃ msg, zrokInit "<TOKEN>" "kaggle" = (.error msg, [])) ∧
    zrokInit "zrok_live_token" "kaggle" =
      (.ok ⟨"zrok_live_token", "kaggle"⟩, []) := by
  refine ⟨construction_validates_placeholder_tokens.1 "<TOKEN>" "kaggle" (Or.inr ⟨?_, ?_⟩),
    construction_validates_placeholder_tokens.2 "zrok_live_token" "kaggle" ?_ ?_⟩
  · decide
  · decide
  · decide
  · decide

/-! ## Remote data model (spec §3 / §6; JSON shapes consumed by
`src/zrok_api.py`)

Python dictionaries read with `d.get(key, default)` are modelled as
structures with `Option` fields, the default being applied at the use
site with `Option.getD`, exactly where the source applies it. -/

structure Share where
  backendMode : Option String
  backendProxyEndpoint : Option String
  shareToken : Option String
  deriving Repr, DecidableEq

structure Environment where
  description : Option String
  zId : Option String
  deriving Repr, DecidableEq

/-- One element of the `environments` array: `item.get("environment", {})`
and `env.get("shares", [])` both default to an empty dict/list, so the
absent-key case is the record with `none` fields. -/
structure EnvItem where
  environment : Environment
  shares : Option (List Share)
  deriving Repr, DecidableEq

/-- Parsed body of `GET /overview`; `data.get('environments', [])`. -/
structure Overview where
  environments : Option (List EnvItem)
  deriving Repr, DecidableEq

/-! ## C2 — `Zrok._request` (src/zrok_api.py:55-101)

```python
for attempt in range(self.MAX_RETRIES):
    try:
        ... urlopen ...
        return json.loads(resp.read().decode()) if resp.read else {}
    except urllib.error.HTTPError as e:
        if e.code == 401:
            raise ZrokError("Invalid token. Check your zrok API token.")
        elif e.code == 404:
            return {}
        last_error = e
    except urllib.error.URLError as e:
        last_error = e
    except json.JSONDecodeError:
        return {}
    if attempt < self.MAX_RETRIES - 1:
        time.sleep(self.RETRY_DELAY * (attempt + 1))
raise ZrokError(f"API request failed after {self.MAX_RETRIES} attempts: ...")
```

The network is modelled by a function `attempts : Nat → Attempt` giving
the outcome the `urlopen`/`json.loads` pair would observe on each
attempt.  (`resp.read` on line 86 is a bound method and always truthy, so
the success branch always parses the body.) -/

def MAX_RETRIES : Nat := 3

def RETRY_DELAY : Nat := 2

/-- What one attempt of the HTTP request observes. -/
inductive Attempt where
  /-- A 2xx response whose body parsed as JSON. -/
  | success (body : Overview)
  /-- An HTTPError with this status code. -/
  | httpError (code : Nat)
  /-- A URLError: transient network failure. -/
  | urlError
  /-- A 2xx response whose body failed to parse (json.JSONDecodeError). -/
  | decodeError
  deriving Repr, DecidableEq

/-- Result of `_request`: a parsed body, or one of the two raised
`ZrokError` flavours. -/
inductive ReqResult where
  | ok (body : Overview)
  | authError (msg : String)
  | apiError (msg : String)
  deriving Repr, DecidableEq

/-- Observable run of `_request`: its result, how many attempts were
consumed, and the `time.sleep` delays issued between attempts. -/
structure RunOut where
  result : ReqResult
  attemptsUsed : Nat
  sleeps : List Nat
  deriving Repr, DecidableEq

/-- The `try`/`except` body of one loop iteration: `some r` when the body
returns or raises with `r` (success, decode error, 401, 404), `none` when
the exception only sets `last_error` and control falls through to the
retry logic (`URLError`, other `HTTPError` codes). -/
def attemptOutcome : Attempt → Option ReqResult
  | .success body => some (.ok body)
  | .decodeError => some (.ok ⟨none⟩)
  | .httpError code =>
    if code = 401 then some (.authError "Invalid token. Check your zrok API token.")
    else if code = 404 then some (.ok ⟨none⟩)
    else none
  | .urlError => none

/-- The retry loop from attempt index `i`, with `fuel` iterations left
(`fuel = MAX_RETRIES - i` at every call).  When the last iteration
(`fuel = 1`) falls through, the loop ends and the final `raise` fires;
the `i, 0` base case is that same `raise` with zero iterations. -/
def requestGo (attempts : Nat → Attempt) : Nat → Nat → RunOut
  | i, 0 => ⟨.apiError "API request failed after 3 attempts", i, []⟩
  | i, fuel + 1 =>
    match attemptOutcome (attempts i) with
    | some r => ⟨r, i + 1, []⟩
    | none =>
      if fuel = 0 then ⟨.apiError "API request failed after 3 attempts", i + 1, []⟩
      else
        let r := requestGo attempts (i + 1) fuel
        ⟨r.result, r.attemptsUsed, RETRY_DELAY * (i + 1) :: r.sleeps⟩

/-- The function `Zrok._request` as run against the attempt oracle. -/
def requestRun (attempts : Nat → Attempt) : RunOut :=
  requestGo attempts 0 MAX_RETRIES

/-- Retryable outcomes: `URLError`, and `HTTPError` other than 401/404. -/
def retryable (a : Attempt) : Bool := (attemptOutcome a).isNone

/-- One retry step: on a retryable outcome with at least two loop
iterations left, `_request` defers to the run starting at the next
attempt index. -/
theorem requestGo_step (attempts : Nat → Attempt) (i fuel : Nat)
    (hf : 2 ≤ fuel) (h : retryable (attempts i) = true) :
    (requestGo attempts i fuel).result = (requestGo attempts (i + 1) (fuel - 1)).result ∧
    (requestGo attempts i fuel).attemptsUsed =
      (requestGo attempts (i + 1) (fuel - 1)).attemptsUsed := by
  obtain ⟨f, rfl⟩ : ∃ f, fuel = f + 2 := ⟨fuel - 2, by omega⟩
  have hn : attemptOutcome (attempts i) = none := by
    simpa [retryable, Option.isNone_iff_eq_none] using h
  have hf1 : f + 2 - 1 = f + 1 := by omega
  rw [hf1]
  simp [requestGo, hn]

/-- Skipping `k` retryable attempts: the run from attempt `i` has the
result and attempt count of the run from attempt `i + k`. -/
theorem requestGo_reach (attempts : Nat → Attempt) :
    ∀ (k i fuel : Nat), k < fuel →
    (∀ j, j < k → retryable (attempts (i + j)) = true) →
    (requestGo attempts i fuel).result = (requestGo attempts (i + k) (fuel - k)).result ∧
    (requestGo attempts i fuel).attemptsUsed =
      (requestGo attempts (i + k) (fuel - k)).attemptsUsed := by
  intro k
  induction k with
  | zero => intro i fuel _ _; simp
  | succ k ih =>
    intro i fuel hk hprev
    have hstep := requestGo_step attempts i fuel (by omega)
      (by simpa using hprev 0 (by omega))
    have hrest := ih (i + 1) (fuel - 1) (by omega)
      (by
        intro j hj
        have := hprev (j + 1) (by omega)
        have harg : i + (j + 1) = i + 1 + j := by omega
        rwa [harg] at this)
    have h1 : i + 1 + k = i + (k + 1) := by omega
    have h2 : fuel - 1 - k = fuel - (k + 1) := by omega
    rw [h1, h2] at hrest
    exact ⟨hstep.1.trans hrest.1, hstep.2.trans hrest.2⟩

/-- C2: for every request, all-transient failures are retried up to
exactly `MAX_RETRIES = 3` attempts with linearly increasing backoff
(`RETRY_DELAY * attempt-number` sleeps), after which an `ApiError`
surfaces; a 401 response raises an authentication error on the attempt
that received it with no further attempts; a 404 response yields the
empty result `{}` with no error. -/
theorem request_retry_backoff_and_status_handling :
    (∀ attempts : Nat → Attempt,
      (∀ i, i < MAX_RETRIES → attempts i = .urlError) →
      requestRun attempts = ⟨.apiError "API request failed after 3 attempts", 3,
        [RETRY_DELAY * 1, RETRY_DELAY * 2]⟩) ∧
    (∀ (attempts : Nat → Attempt) (k : Nat), k < MAX_RETRIES →
      (∀ j, j < k → retryable (attempts j) = true) →
      attempts k = .httpError 401 →
      (requestRun attempts).result = .authError "Invalid token. Check your zrok API token." ∧
      (requestRun attempts).attemptsUsed = k + 1) ∧
    (∀ (attempts : Nat → Attempt) (k : Nat), k < MAX_RETRIES →
      (∀ j, j < k → retryable (attempts j) = true) →
      attempts k = .httpError 404 →
      (requestRun attempts).result = .ok ⟨none⟩ ∧
      (requestRun attempts).attemptsUsed = k + 1) := by
  refine ⟨?_, ?_, ?_⟩
  · intro attempts h
    have h0 := h 0 (by norm_num [MAX_RETRIES])
    have h1 := h 1 (by norm_num [MAX_RETRIES])
    have h2 := h 2 (by norm_num [MAX_RETRIES])
    simp [requestRun, MAX_RETRIES, requestGo, attemptOutcome, h0, h1, h2, RETRY_DELAY]
  · intro attempts k hk hprev h401
    obtain ⟨hres, hused⟩ := requestGo_reach attempts k 0 MAX_RETRIES hk
      (by intro j hj; simpa using hprev j hj)
    obtain ⟨m, hm⟩ : ∃ m, MAX_RETRIES - k = m + 1 :=
      ⟨MAX_RETRIES - k - 1, by simp [MAX_RETRIES] at hk ⊢; omega⟩
    rw [hm] at hres hused
    simp only [Nat.zero_add] at hres hused
    have hgo : requestGo attempts k (m + 1) =
        ⟨.authError "Invalid token. Check your zrok API token.", k + 1, []⟩ := by
      simp [requestGo, attemptOutcome, h401]
    rw [hgo] at hres hused
    exact ⟨by simpa [requestRun] using hres, by simpa [requestRun] using hused⟩
  · intro attempts k hk hprev h404
    obtain ⟨hres, hused⟩ := requestGo_reach attempts k 0 MAX_RETRIES hk
      (by intro j hj; simpa using hprev j hj)
    obtain ⟨m, hm⟩ : ∃ m, MAX_RETRIES - k = m + 1 :=
      ⟨MAX_RETRIES - k - 1, by simp [MAX_RETRIES] at hk ⊢; omega⟩
    rw [hm] at hres hused
    simp only [Nat.zero_add] at hres hused
    have hgo : requestGo attempts k (m + 1) = ⟨.ok ⟨none⟩, k + 1, []⟩ := by
      simp [requestGo, attemptOutcome, h404]
    rw [hgo] at hres hused
    exact ⟨by simpa [requestRun] using hres, by simpa [requestRun] using hused⟩

/-- Witness for C2: an always-failing network exhausts 3 attempts with
sleeps 2 and 4; a 401 on the second attempt (after one transient) stops
at 2 attempts; a 404 on the first attempt returns the empty body. -/
theorem request_retry_backoff_and_status_handling_witness :
    requestRun (fun _ => .urlError) =
      ⟨.apiError "API request failed after 3 attempts", 3,
        [RETRY_DELAY * 1, RETRY_DELAY * 2]⟩ ∧
    ((requestRun (fun i => if i = 0 then .urlError else .httpError 401)).result =
        .authError "Invalid token. Check your zrok API token." ∧
      (requestRun (fun i => if i = 0 then .urlError else .httpError 401)).attemptsUsed = 2) ∧
    ((requestRun (fun _ => .httpError 404)).result = .ok ⟨none⟩ ∧
      (requestRun (fun _ => .httpError 404)).attemptsUsed = 1) := by
  refine ⟨request_retry_backoff_and_status_handling.1 _ (by intro i _; rfl),
    request_retry_backoff_and_status_handling.2.1 _ 1 (by norm_num [MAX_RETRIES])
      (by intro j hj; interval_cases j; rfl) (by rfl),
    request_retry_backoff_and_status_handling.2.2 _ 0 (by norm_num [MAX_RETRIES])
      (by intro j hj; omega) (by rfl)⟩

/-! ## Read-path lookups — `Zrok.get_environments`, `Zrok.find_env`,
`Zrok.find_share_token` (src/zrok_api.py:103-140) -/

/-- The method `_request` as seen by callers: `Except` separates a returned body
from a raised `ZrokError` (both the 401 `ZrokError` and the
retries-exhausted `ZrokError` are the same exception class). -/
def requestExc (attempts : Nat → Attempt) : Except String Overview :=
  match (requestRun attempts).result with
  | .ok body => .ok body
  | .authError msg => .error msg
  | .apiError msg => .error msg

/-- Method `Zrok.get_environments`: `try: ... except ZrokError: return []`. -/
def get_environments (attempts : Nat → Attempt) : List EnvItem :=
  match requestExc attempts with
  | .ok data => data.environments.getD []
  | .error _ => []

/-- Python `item.get("environment", \x7b\x7d).get("description", "").lower() == name.lower()`. -/
def descMatches (name : String) (item : EnvItem) : Bool :=
  pyLower (item.environment.description.getD "") == pyLower name

/-- The `for item in ...` loop of `Zrok.find_env`: first match or `None`. -/
def findFirstEnv (name : String) : List EnvItem → Option EnvItem
  | [] => none
  | item :: rest =>
    if descMatches name item then some item else findFirstEnv name rest

/-- Method `Zrok.find_env`. -/
def find_env (attempts : Nat → Attempt) (name : String) : Option EnvItem :=
  findFirstEnv name (get_environments attempts)

/-- The `for share in env.get("shares", [])` loop of
`Zrok.find_share_token`: the first share whose `backendMode` is
`"tcpTunnel"` and whose `backendProxyEndpoint` is `f"localhost:{port}"`
ends the loop with `share.get("shareToken")`. -/
def scanShares (port : Nat) : List Share → Option String
  | [] => none
  | share :: rest =>
    if share.backendMode.getD "" == "tcpTunnel" &&
        share.backendProxyEndpoint.getD "" == "localhost:" ++ toString port then
      share.shareToken
    else scanShares port rest

/-- Method `Zrok.find_share_token` (src/zrok_api.py:119-140).  The Python guard
`if not env` treats `None` and the falsy empty dict alike; an empty dict
has no `shares`, so both yield `None` and the `none` check is faithful. -/
def find_share_token (attempts : Nat → Attempt) (server_name : String)
    (port : Nat) : Option String :=
  match find_env attempts server_name with
  | none => none
  | some env => scanShares port (env.shares.getD [])

/-- A network that answers every attempt with the same parsed body. -/
def constNet (body : Overview) : Nat → Attempt := fun _ => .success body

/-- Share condition as the spec words it: `backendMode` equals the
TCP-passthrough sentinel and `backendProxyEndpoint` equals
`"localhost:<port>"` exactly. -/
def specShareMatches (port : Nat) (s : Share) : Bool :=
  s.backendMode.getD "" == "tcpTunnel" &&
    s.backendProxyEndpoint.getD "" == "localhost:" ++ toString port

/-- Modelled from the claim wording (refinement side for C1): the
`shareToken` of the first condition-satisfying share of the first
case-insensitively matching environment, or absent. -/
def findShareTokenSpec (listing : List EnvItem) (name : String)
    (port : Nat) : Option String :=
  (listing.find? (descMatches name)).bind fun env =>
    ((env.shares.getD []).find? (specShareMatches port)).bind Share.shareToken

theorem findFirstEnv_eq_find? (name : String) :
    ∀ l : List EnvItem, findFirstEnv name l = l.find? (descMatches name) := by
  intro l
  induction l with
  | nil => rfl
  | cons item rest ih =>
    by_cases h : descMatches name item = true
    · simp [findFirstEnv, List.find?, h]
    · simp only [Bool.not_eq_true] at h
      simp [findFirstEnv, List.find?, h, ih]

theorem scanShares_eq_find? (port : Nat) :
    ∀ l : List Share,
      scanShares port l = (l.find? (specShareMatches port)).bind Share.shareToken := by
  intro l
  induction l with
  | nil => rfl
  | cons share rest ih =>
    rw [List.find?_cons]
    cases h : specShareMatches port share with
    | true =>
      have h' : (share.backendMode.getD "" == "tcpTunnel" &&
          share.backendProxyEndpoint.getD "" == "localhost:" ++ toString port) = true := h
      simp [scanShares, h']
    | false =>
      have h' : (share.backendMode.getD "" == "tcpTunnel" &&
          share.backendProxyEndpoint.getD "" == "localhost:" ++ toString port) = false := h
      simp [scanShares, h', ih]

theorem get_environments_constNet (listing : List EnvItem) :
    get_environments (constNet ⟨some listing⟩) = listing := by
  have : requestRun (constNet ⟨some listing⟩) = ⟨.ok ⟨some listing⟩, 1, []⟩ := by
    simp [requestRun, MAX_RETRIES, requestGo, attemptOutcome, constNet]
  simp [get_environments, requestExc, this]

/-- The end-to-end scenario listing of C1: one environment named
`kaggle_server` holding one `tcpTunnel` share at `localhost:22` with
token `abcXYZ123456`. -/
def demoListing : List EnvItem :=
  [⟨⟨some "kaggle_server", none⟩,
    some [⟨some "tcpTunnel", some "localhost:22", some "abcXYZ123456"⟩]⟩]

/-- C1: for every remote listing, `find_share_token` returns the
`shareToken` of the first share of the first case-insensitively matching
environment whose `backendMode` is exactly `"tcpTunnel"` and whose
`backendProxyEndpoint` is exactly `"localhost:<port>"` (string equality),
and absent otherwise; on the scenario listing, port 22 yields
`"abcXYZ123456"` and port 8080 yields absent. -/
theorem find_share_token_exact_first_match :
    (∀ (listing : List EnvItem) (name : String) (port : Nat),
      find_share_token (constNet ⟨some listing⟩) name port =
        findShareTokenSpec listing name port) ∧
    find_share_token (constNet ⟨some demoListing⟩) "kaggle_server" 22 =
      some "abcXYZ123456" ∧
    find_share_token (constNet ⟨some demoListing⟩) "kaggle_server" 8080 = none := by
  refine ⟨?_, ?_, ?_⟩
  · intro listing name port
    unfold find_share_token findShareTokenSpec find_env
    rw [get_environments_constNet, ← findFirstEnv_eq_find?]
    cases hfe : findFirstEnv name listing with
    | none => rfl
    | some env => simp [scanShares_eq_find?]
  · decide
  · decide

/-- C6: the read-path lookups never raise: whenever `_request` raises a
`ZrokError` (retries exhausted, and also the 401 authentication error),
`get_environments` returns `[]` and `find_env` returns `None`;
`find_env` is always the first case-insensitive match of the returned
listing or `None`; an empty listing also gives `None`. -/
theorem read_path_lookups_never_raise :
    (∀ (attempts : Nat → Attempt) (e name : String),
      requestExc attempts = .error e →
        get_environments attempts = [] ∧ find_env attempts name = none) ∧
    (∀ (attempts : Nat → Attempt) (name : String),
      find_env attempts name = (get_environments attempts).find? (descMatches name)) ∧
    (∀ (attempts : Nat → Attempt) (name : String),
      get_environments attempts = [] → find_env attempts name = none) := by
  refine ⟨?_, ?_, ?_⟩
  · intro attempts e name h
    have hg : get_environments attempts = [] := by simp [get_environments, h]
    exact ⟨hg, by simp [find_env, hg, findFirstEnv]⟩
  · intro attempts name
    simp [find_env, findFirstEnv_eq_find?]
  · intro attempts name h
    simp [find_env, h, findFirstEnv]

/-- Witness for C6 on an always-unreachable network and on an empty
remote listing. -/
theorem read_path_lookups_never_raise_witness :
    (get_environments (fun _ => .urlError) = [] ∧
      find_env (fun _ => .urlError) "kaggle_server" = none) ∧
    find_env (constNet ⟨some []⟩) "kaggle_server" = none := by
  refine ⟨read_path_lookups_never_raise.1 _ "API request failed after 3 attempts"
      "kaggle_server" ?_,
    read_path_lookups_never_raise.2.2 _ "kaggle_server" ?_⟩
  · rfl
  · exact get_environments_constNet []

/-! ## C7 — `Zrok.enable` (src/utils.py:99-124)

```python
status = subprocess.run(["zrok", "status"], capture_output=True, text=True)
if "Account Token" in status.stdout and "<<SET>>" in status.stdout:
    logger.info("zrok already enabled locally")
    return
result = subprocess.run(["zrok", "enable", self.token, "-d", self.name], ...)
if result.returncode != 0:
    error_msg = result.stderr.strip() or result.stdout.strip()
    if "already enabled" in error_msg.lower(): ... return
    if "401" in error_msg or "unauthorized" in error_msg.lower(): raise ZrokError(...)
    if not error_msg: error_msg = "Unknown error - check your token at https://zrok.io"
    raise ZrokError(f"Failed to enable zrok: {error_msg}")
```
The two subprocess results are parameters. -/

/-- Result of `subprocess.run(..., capture_output=True, text=True)`. -/
structure ProcResult where
  returncode : Int
  stdout : String
  stderr : String
  deriving Repr, DecidableEq

inductive EnableOutcome where
  /-- Returned without raising. -/
  | ok
  /-- Raised the authentication `ZrokError`. -/
  | authError (msg : String)
  /-- Raised the generic `ZrokError`. -/
  | genericError (msg : String)
  deriving Repr, DecidableEq

structure EnableOut where
  outcome : EnableOutcome
  /-- Whether the `zrok enable` subcommand was invoked at all. -/
  enableInvoked : Bool
  deriving Repr, DecidableEq

/-- The actionable authentication message raised by `enable`. -/
def authErrorMessage : String :=
  "Token expired or invalid!\n   → Go to https://zrok.io → Account → Generate new invite token\n   → The invite token is ONE-TIME USE only"

/-- Method `Zrok.enable`, given the `zrok status` stdout and the result the
`zrok enable` subcommand would produce if invoked. -/
def enable (statusOut : String) (res : ProcResult) : EnableOut :=
  if pyIn statusOut "Account Token" && pyIn statusOut "<<SET>>" then
    ⟨.ok, false⟩
  else if res.returncode ≠ 0 then
    let error_msg := pyOrStr (pyStrip res.stderr) (pyStrip res.stdout)
    if pyIn (pyLower error_msg) "already enabled" then ⟨.ok, true⟩
    else if pyIn error_msg "401" || pyIn (pyLower error_msg) "unauthorized" then
      ⟨.authError authErrorMessage, true⟩
    else
      let error_msg :=
        if error_msg = "" then "Unknown error - check your token at https://zrok.io"
        else error_msg
      ⟨.genericError ("Failed to enable zrok: " ++ error_msg), true⟩
  else ⟨.ok, true⟩

/-- C7: `enable` short-circuits as a successful no-op (without invoking
the enable subcommand) when local status reports an account token set; an
"already enabled" failure of the subcommand is also a successful no-op;
an authentication failure (401/unauthorized) raises the actionable
message directing the user to a new ONE-TIME-USE credential; any other
failure raises with the captured stderr-or-stdout text. -/
theorem enable_idempotent_and_error_taxonomy :
    (∀ (statusOut : String) (res : ProcResult),
      pyIn statusOut "Account Token" = true → pyIn statusOut "<<SET>>" = true →
      enable statusOut res = ⟨.ok, false⟩) ∧
    (∀ (statusOut : String) (res : ProcResult),
      pyIn (pyLower (pyOrStr (pyStrip res.stderr) (pyStrip res.stdout)))
          "already enabled" = true →
      (enable statusOut res).outcome = .ok) ∧
    (∀ (statusOut : String) (res : ProcResult),
      (pyIn statusOut "Account Token" && pyIn statusOut "<<SET>>") = false →
      res.returncode ≠ 0 →
      pyIn (pyLower (pyOrStr (pyStrip res.stderr) (pyStrip res.stdout)))
          "already enabled" = false →
      (pyIn (pyOrStr (pyStrip res.stderr) (pyStrip res.stdout)) "401" = true ∨
        pyIn (pyLower (pyOrStr (pyStrip res.stderr) (pyStrip res.stdout)))
          "unauthorized" = true) →
      (enable statusOut res).outcome = .authError authErrorMessage ∧
        pyIn authErrorMessage "ONE-TIME USE" = true) ∧
    (∀ (statusOut : String) (res : ProcResult),
      (pyIn statusOut "Account Token" && pyIn statusOut "<<SET>>") = false →
      res.returncode ≠ 0 →
      pyIn (pyLower (pyOrStr (pyStrip res.stderr) (pyStrip res.stdout)))
          "already enabled" = false →
      pyIn (pyOrStr (pyStrip res.stderr) (pyStrip res.stdout)) "401" = false →
      pyIn (pyLower (pyOrStr (pyStrip res.stderr) (pyStrip res.stdout)))
          "unauthorized" = false →
      pyOrStr (pyStrip res.stderr) (pyStrip res.stdout) ≠ "" →
      (enable statusOut res).outcome =
        .genericError ("Failed to enable zrok: " ++
          pyOrStr (pyStrip res.stderr) (pyStrip res.stdout))) := by
  refine ⟨?_, ?_, ?_, ?_⟩
  · intro statusOut res h1 h2
    simp [enable, h1, h2]
  · intro statusOut res h
    by_cases hs : (pyIn statusOut "Account Token" && pyIn statusOut "<<SET>>") = true
    · simp [enable, hs]
    · simp only [Bool.not_eq_true] at hs
      by_cases hr : res.returncode ≠ 0
      · simp [enable, hs, hr, h]
      · simp [enable, hs, hr]
  · intro statusOut res hs hr hae hauth
    refine ⟨?_, by decide⟩
    rcases hauth with h401 | hun
    · simp [enable, hs, hr, hae, h401]
    · simp [enable, hs, hr, hae, hun]
  · intro statusOut res hs hr hae h401 hun hne
    simp [enable, hs, hr, hae, h401, hun, hne]

/-- Witness for C7: enabled status short-circuits; "already enabled"
failure is a no-op; an unauthorized failure raises the ONE-TIME-USE
message; a generic failure raises with the captured stderr. -/
theorem enable_idempotent_and_error_taxonomy_witness :
    enable "Account Token  <<SET>>" ⟨0, "", ""⟩ = ⟨.ok, false⟩ ∧
    (enable "" ⟨1, "", "zrok already enabled"⟩).outcome = .ok ∧
    ((enable "" ⟨1, "", "ERROR: unauthorized"⟩).outcome = .authError authErrorMessage ∧
      pyIn authErrorMessage "ONE-TIME USE" = true) ∧
    (enable "" ⟨1, "", "connection refused"⟩).outcome =
      .genericError ("Failed to enable zrok: " ++
        pyOrStr (pyStrip "connection refused") (pyStrip "")) := by
  refine ⟨enable_idempotent_and_error_taxonomy.1 _ _ (by decide) (by decide),
    enable_idempotent_and_error_taxonomy.2.1 _ _ (by decide),
    enable_idempotent_and_error_taxonomy.2.2.1 _ _ (by decide) (by decide) (by decide)
      (Or.inr (by decide)),
    enable_idempotent_and_error_taxonomy.2.2.2 _ _ (by decide) (by decide) (by decide)
      (by decide) (by decide) (by decide)⟩

/-! ## Local connection state store (src/local/connect.py:45-56)

```python
def load_config():
    if CONFIG_FILE.exists():
        with open(CONFIG_FILE, 'r') as f:
            return json.load(f)        # raises json.JSONDecodeError on bad bytes
    return {}

def save_config(config):
    with open(CONFIG_FILE, 'w') as f:
        json.dump(config, f, indent=2)
    os.chmod(CONFIG_FILE, 0o600)
```

The JSON layer is modelled for the shape this store actually holds: a
flat object of string keys and string values without escape sequences.
`dumpFlat` mirrors `json.dump(..., indent=2)` on that shape;
`parseFlatObj` mirrors `json.load`, failing (`none`) on any input that is
not such an object. -/

/-- Drop leading JSON whitespace. -/
def skipWsL : List Char → List Char
  | [] => []
  | c :: cs =>
    if c = ' ' || c = '\t' || c = '\n' || c = '\r' then skipWsL cs else c :: cs

/-- Read the remainder of a JSON string literal after the opening quote
(escape sequences are outside this model). -/
def readJStringAux : List Char → List Char → Option (String × List Char)
  | [], _ => none
  | c :: cs, acc =>
    if c = '"' then some (String.mk acc.reverse, cs)
    else if c = '\\' then none
    else readJStringAux cs (c :: acc)

/-- Read a JSON string literal. -/
def readJString : List Char → Option (String × List Char)
  | '"' :: cs => readJStringAux cs []
  | _ => none

/-- Parse one or more `"key": "value"` members separated by commas. -/
def parseMembers : Nat → List Char → Option (List (String × String) × List Char)
  | 0, _ => none
  | fuel + 1, cs =>
    match readJString (skipWsL cs) with
    | none => none
    | some (k, cs1) =>
      match skipWsL cs1 with
      | ':' :: cs2 =>
        match readJString (skipWsL cs2) with
        | none => none
        | some (v, cs3) =>
          match skipWsL cs3 with
          | ',' :: cs4 =>
            match parseMembers fuel cs4 with
            | none => none
            | some (ms, rest) => some ((k, v) :: ms, rest)
          | rest => some ([(k, v)], rest)
      | _ => none

/-- Python `json.load` restricted to flat string-to-string objects. -/
def parseFlatObj (s : String) : Option (List (String × String)) :=
  match skipWsL s.data with
  | '{' :: cs =>
    match skipWsL cs with
    | '}' :: rest => if skipWsL rest = [] then some [] else none
    | cs1 =>
      match parseMembers (cs1.length + 1) cs1 with
      | none => none
      | some (ms, rest1) =>
        match skipWsL rest1 with
        | '}' :: rest2 => if skipWsL rest2 = [] then some ms else none
        | _ => none
  | _ => none

/-- Join with `",\n"` separators. -/
def joinCommaNL : List String → String
  | [] => ""
  | [x] => x
  | x :: xs => x ++ ",\n" ++ joinCommaNL xs

/-- Python `json.dump(config, f, indent=2)` on a flat string map. -/
def dumpFlat (m : List (String × String)) : String :=
  match m with
  | [] => "\x7b\x7d"
  | _ =>
    "\x7b\n" ++
      joinCommaNL (m.map (fun kv => "  \"" ++ kv.1 ++ "\": \"" ++ kv.2 ++ "\"")) ++
      "\n\x7d"

/-- Outcome of `load_config`. -/
inductive LoadResult where
  | ok (config : List (String × String))
  | jsonDecodeError
  deriving Repr, DecidableEq

/-- Function `load_config`, given the config file contents if the file exists.
`json.load` raises on malformed bytes and `load_config` installs no
handler, so that case surfaces as `jsonDecodeError`. -/
def load_config (file : Option String) : LoadResult :=
  match file with
  | none => .ok []
  | some bytes =>
    match parseFlatObj bytes with
    | some m => .ok m
    | none => .jsonDecodeError

/-- On-disk file state: presence, content, and permission bits. -/
structure DiskFile where
  present : Bool
  content : String
  mode : Nat
  deriving Repr, DecidableEq

/-- Python `open(path, 'w')` plus a full write: truncates or creates; a newly
created file gets the process-default mode, an existing one keeps its
mode bits. -/
def writeFile (prior : DiskFile) (content : String) (createMode : Nat) : DiskFile :=
  { present := true, content := content,
    mode := if prior.present then prior.mode else createMode }

/-- Python `os.chmod` / `Path.chmod`. -/
def chmodFile (f : DiskFile) (m : Nat) : DiskFile := { f with mode := m }

/-- Function `save_config`: write the JSON dump, then chmod `0o600`. -/
def save_config (prior : DiskFile) (config : List (String × String))
    (createMode : Nat) : DiskFile :=
  chmodFile (writeFile prior (dumpFlat config) createMode) 0o600

/-- C4 counterexample: a config file holding bytes that are not valid
JSON makes `load_config` raise a `json.JSONDecodeError` (there is no
handler), not return the empty mapping as claimed. -/
theorem load_config_malformed_raises_counterexample :
    load_config (some "\x7bnot json") ≠ .ok [] ∧
    load_config (some "\x7bnot json") = .jsonDecodeError := by
  exact ⟨by decide, by decide⟩

/-- C4 amended: `load_config` returns the empty mapping when the file is
absent, and saving `{"token": "t1"}` then loading returns exactly that
mapping; but a file with invalid JSON bytes raises a JSON decode error
instead of returning the empty mapping. -/
theorem load_config_roundtrip_amended :
    load_config none = .ok [] ∧
    (∀ (prior : DiskFile) (createMode : Nat),
      load_config (some ((save_config prior [("token", "t1")] createMode).content)) =
        .ok [("token", "t1")]) ∧
    load_config (some "\x7bnot json") = .jsonDecodeError := by
  refine ⟨rfl, ?_, by decide⟩
  intro prior createMode
  show load_config (some (dumpFlat [("token", "t1")])) = .ok [("token", "t1")]
  decide

/-! ## C5/C9 — `update_ssh_config` (src/local/connect.py:83-124)

```python
lines = existing.split('\n')
new_lines = []
skip = False
for line in lines:
    if line.strip().startswith(f'Host {aliasName}'):
        skip = True
        continue
    if skip and line.strip().startswith('Host '):
        skip = False
    if not skip and not line.strip().startswith('# Kaggle Remote Connection'):
        new_lines.append(line)
new_config = '\n'.join(new_lines).strip() + entry
ssh_config.write_text(new_config)
ssh_config.chmod(0o600)
```
-/

/-- The freshly generated entry block appended by `update_ssh_config`. -/
def sshEntry (aliasName hostname : String) (port : Nat) : String :=
  "\n# Kaggle Remote Connection (auto-generated)\nHost " ++ aliasName ++
    "\n    HostName " ++ hostname ++ "\n    User root\n    Port " ++ toString port ++
    "\n    StrictHostKeyChecking no\n    UserKnownHostsFile /dev/null\n    ServerAliveInterval 60\n    ServerAliveCountMax 3\n    LogLevel ERROR\n"

/-- The `for line in lines` filter removing the old entry; the `Bool`
argument is the loop's `skip` state.  A line whose stripped form starts
with `Host <aliasName>` turns skipping on and is dropped; while skipping, a
stripped line starting with `Host ` turns skipping off (and is kept);
outside skipping, lines whose stripped form starts with
`# Kaggle Remote Connection` are dropped. -/
def removeOldEntry (aliasName : String) : Bool → List String → List String
  | _, [] => []
  | skip, line :: rest =>
    if pyStartswith (pyStrip line) ("Host " ++ aliasName) then
      removeOldEntry aliasName true rest
    else
      let skip2 := if skip && pyStartswith (pyStrip line) "Host " then false else skip
      if !skip2 && !pyStartswith (pyStrip line) "# Kaggle Remote Connection" then
        line :: removeOldEntry aliasName skip2 rest
      else
        removeOldEntry aliasName skip2 rest

/-- The new ssh-config text: filtered existing text, whitespace-stripped,
with the new entry appended. -/
def newSshConfigText (aliasName hostname : String) (port : Nat)
    (existing : String) : String :=
  pyStrip (pyJoinNL (removeOldEntry aliasName false (pySplitNL existing))) ++
    sshEntry aliasName hostname port

/-- Function `update_ssh_config` as a file-state transformer: read the existing
config (empty when absent), write the new text, chmod `0o600`. -/
def update_ssh_config (prior : DiskFile) (hostname : String) (port : Nat)
    (aliasName : String) (createMode : Nat) : DiskFile :=
  let existing := if prior.present then prior.content else ""
  chmodFile (writeFile prior (newSshConfigText aliasName hostname port existing)
    createMode) 0o600

/-- C9: after every `save_config` and after every `update_ssh_config`,
the written file's permission bits are exactly `0o600`, regardless of the
file's prior existence or prior mode. -/
theorem saved_files_have_owner_only_mode :
    (∀ (prior : DiskFile) (config : List (String × String)) (createMode : Nat),
      (save_config prior config createMode).mode = 0o600 ∧
      (save_config prior config createMode).present = true) ∧
    (∀ (prior : DiskFile) (hostname : String) (port : Nat) (aliasName : String)
        (createMode : Nat),
      (update_ssh_config prior hostname port aliasName createMode).mode = 0o600 ∧
      (update_ssh_config prior hostname port aliasName createMode).present = true) :=
  ⟨fun _ _ _ => ⟨rfl, rfl⟩, fun _ _ _ _ _ => ⟨rfl, rfl⟩⟩

/-- A string starting with `a ++ b` starts with `a`. -/
theorem pyStartswith_of_append (s a b : String)
    (h : pyStartswith s (a ++ b) = true) : pyStartswith s a = true := by
  unfold pyStartswith at h ⊢
  rw [String.data_append] at h
  obtain ⟨t, ht⟩ := List.isPrefixOf_iff_prefix.mp h
  refine List.isPrefixOf_iff_prefix.mpr ⟨b.data ++ t, ?_⟩
  rw [← List.append_assoc]
  exact ht

/-- While skipping, lines that do not look like a `Host ` header are
consumed without output and without leaving the skip state. -/
theorem removeOldEntry_skip_all (aliasName : String) :
    ∀ (mid rest : List String),
      (∀ l ∈ mid, pyStartswith (pyStrip l) "Host " = false) →
      removeOldEntry aliasName true (mid ++ rest) =
        removeOldEntry aliasName true rest := by
  intro mid
  induction mid with
  | nil => intro rest _; simp
  | cons l mid ih =>
    intro rest h
    have hl := h l (by simp)
    have halias : pyStartswith (pyStrip l) ("Host " ++ aliasName) = false := by
      rcases Bool.eq_false_or_eq_true
          (pyStartswith (pyStrip l) ("Host " ++ aliasName)) with ht | hf
      · have := pyStartswith_of_append _ _ _ ht
        rw [hl] at this
        exact absurd this (by simp)
      · exact hf
    simp only [List.cons_append]
    rw [removeOldEntry]
    simp [halias, hl]
    exact ih rest (fun x hx => h x (by simp [hx]))

/-- Outside skipping, lines that neither match the alias prefix nor are
generated comments are kept unchanged. -/
theorem removeOldEntry_keep_all (aliasName : String) :
    ∀ (pre rest : List String),
      (∀ l ∈ pre, pyStartswith (pyStrip l) ("Host " ++ aliasName) = false ∧
        pyStartswith (pyStrip l) "# Kaggle Remote Connection" = false) →
      removeOldEntry aliasName false (pre ++ rest) =
        pre ++ removeOldEntry aliasName false rest := by
  intro pre
  induction pre with
  | nil => intro rest _; simp
  | cons l pre ih =>
    intro rest h
    have hl := h l (by simp)
    simp only [List.cons_append]
    rw [removeOldEntry]
    simp [hl.1, hl.2]
    exact ih rest (fun x hx => h x (by simp [hx]))

set_option maxRecDepth 16384 in
/-- C5 counterexample: with prior config
`"Host kaggleX\n  Port 1\nHost b\n  Port 2"` — which contains no exact
`Host kaggle` line — updating alias `kaggle` deletes the sibling
`Host kaggleX` block, because the source matches with
`line.strip().startswith(f'Host {alias}')` (prefix match, not exact). -/
theorem update_ssh_config_prefix_counterexample :
    (pySplitNL "Host kaggleX\n  Port 1\nHost b\n  Port 2").all
      (fun l => !(pyStrip l == "Host kaggle")) = true ∧
    pyIn (update_ssh_config ⟨true, "Host kaggleX\n  Port 1\nHost b\n  Port 2", 0o600⟩
        "h.example.org" 22 "kaggle" 0o644).content "Host kaggleX" = false ∧
    removeOldEntry "kaggle" false
        ["Host kaggleX", "  Port 1", "Host b", "  Port 2"] =
      ["Host b", "  Port 2"] := by
  exact ⟨by decide, by decide, by decide⟩

/-- C5 amended: deletion is keyed by a PREFIX match of the stripped line
against `Host <alias>` (so sibling aliases extending the requested one
are removed too); it stops at the next line whose stripped form starts
with `Host ` (that line is kept); all other lines outside the removed
block are kept in order except `# Kaggle Remote Connection` lines, which
are dropped wherever they occur; the new entry is appended after
stripping surrounding whitespace from the joined remainder. -/
theorem update_ssh_config_block_removal_amended :
    (∀ (aliasName : String) (pre mid post : List String) (hdr nxt : String),
      (∀ l ∈ pre, pyStartswith (pyStrip l) ("Host " ++ aliasName) = false ∧
        pyStartswith (pyStrip l) "# Kaggle Remote Connection" = false) →
      pyStartswith (pyStrip hdr) ("Host " ++ aliasName) = true →
      (∀ l ∈ mid, pyStartswith (pyStrip l) "Host " = false) →
      pyStartswith (pyStrip nxt) "Host " = true →
      pyStartswith (pyStrip nxt) ("Host " ++ aliasName) = false →
      pyStartswith (pyStrip nxt) "# Kaggle Remote Connection" = false →
      (∀ l ∈ post, pyStartswith (pyStrip l) ("Host " ++ aliasName) = false ∧
        pyStartswith (pyStrip l) "# Kaggle Remote Connection" = false) →
      removeOldEntry aliasName false (pre ++ hdr :: (mid ++ nxt :: post)) =
        pre ++ nxt :: post) ∧
    (∀ (prior : DiskFile) (hostname aliasName : String) (port createMode : Nat),
      (update_ssh_config prior hostname port aliasName createMode).content =
        pyStrip (pyJoinNL (removeOldEntry aliasName false
          (pySplitNL (if prior.present then prior.content else "")))) ++
          sshEntry aliasName hostname port) := by
  constructor
  · intro aliasName pre mid post hdr nxt hpre hhdr hmid hnxt1 hnxt2 hnxt3 hpost
    rw [removeOldEntry_keep_all aliasName pre _ hpre]
    congr 1
    rw [removeOldEntry]
    simp only [hhdr, if_true]
    rw [removeOldEntry_skip_all aliasName mid _ hmid]
    rw [removeOldEntry]
    simp only [hnxt2, Bool.false_eq_true, if_false, hnxt1, Bool.true_and, if_true,
      Bool.not_false, hnxt3, if_true]
    have hpost' : removeOldEntry aliasName false (post ++ []) =
        post ++ removeOldEntry aliasName false [] :=
      removeOldEntry_keep_all aliasName post [] hpost
    simp only [List.append_nil, removeOldEntry] at hpost'
    rw [hpost']
  · intro prior hostname aliasName port createMode
    rfl

set_option maxRecDepth 8192 in
/-- Witness for the amended C5 theorem on a concrete four-block config. -/
theorem update_ssh_config_block_removal_amended_witness :
    removeOldEntry "kaggle" false
        (["Host other", "    Port 7"] ++ "Host kaggle" ::
          (["    HostName old.example"] ++ "Host b" :: ["    Port 2"])) =
      ["Host other", "    Port 7"] ++ "Host b" :: ["    Port 2"] := by
  exact update_ssh_config_block_removal_amended.1 "kaggle"
    ["Host other", "    Port 7"] ["    HostName old.example"] ["    Port 2"]
    "Host kaggle" "Host b"
    (by decide) (by decide) (by decide) (by decide) (by decide) (by decide) (by decide)

/-! ## C8 — `stop_zrok_access` (src/local/connect.py:186-198)

```python
def stop_zrok_access():
    if ZROK_PID_FILE.exists():
        try:
            pid = int(ZROK_PID_FILE.read_text().strip())
            os.kill(pid, signal.SIGTERM)
            print_info(f"Stopped zrok access (PID: ...)")
        except (ProcessLookupError, ValueError):
            pass
        ZROK_PID_FILE.unlink(missing_ok=True)
    subprocess.run(['pkill', '-f', 'zrok access'], capture_output=True)
```
-/

/-- Exceptions the `except (ProcessLookupError, ValueError)` clause can
see from the `try` body. -/
inductive PyExc where
  | processLookupError
  | valueError
  deriving Repr, DecidableEq

/-- One decimal digit. -/
def charDigit (c : Char) : Option Nat :=
  if 48 ≤ c.toNat ∧ c.toNat ≤ 57 then some (c.toNat - 48) else none

/-- Accumulate decimal digits; `none` on any non-digit. -/
def parseNatAux : List Char → Nat → Option Nat
  | [], acc => some acc
  | c :: cs, acc =>
    match charDigit c with
    | some d => parseNatAux cs (10 * acc + d)
    | none => none

/-- Python `int(s.strip())` (model: optional minus sign and decimal
digits — the PID file is written from `str(process.pid)`, so wider
`int()` syntax such as a plus sign never occurs); raises `ValueError`
otherwise. -/
def pyInt (s : String) : Except PyExc Int :=
  match (pyStrip s).data with
  | [] => .error .valueError
  | '-' :: rest =>
    match rest, parseNatAux rest 0 with
    | _ :: _, some n => .ok (-(n : Int))
    | _, _ => .error .valueError
  | cs =>
    match parseNatAux cs 0 with
    | some n => .ok (n : Int)
    | none => .error .valueError

/-- Python `os.kill(pid, SIGTERM)`: raises `ProcessLookupError` when the
process does not exist. -/
def osKill (alive : Int → Bool) (pid : Int) : Except PyExc Unit :=
  if alive pid then .ok () else .error .processLookupError

/-- Observable outcome of one `stop_zrok_access` call. -/
structure StopOut where
  /-- PID that received SIGTERM, if any. -/
  killed : Option Int
  /-- Messages printed via `print_info`. -/
  messages : List String
  /-- PID-file state afterwards (`unlink(missing_ok=True)`). -/
  pidFileAfter : Option String
  /-- The best-effort `pkill -f "zrok access"` sweep ran. -/
  pkillIssued : Bool
  deriving Repr, DecidableEq

/-- Function `stop_zrok_access`, given the PID-file contents (when the
file exists) and which PIDs are alive.  The `try` body is the `Except`
computation; the handler swallows both `PyExc` constructors, so the
function is total — it cannot raise. -/
def stop_zrok_access (pidFile : Option String) (alive : Int → Bool) : StopOut :=
  match pidFile with
  | none => ⟨none, [], none, true⟩
  | some contents =>
    match (pyInt contents).bind (fun pid => (osKill alive pid).map (fun _ => pid)) with
    | .ok pid =>
      ⟨some pid, ["Stopped zrok access (PID: " ++ toString pid ++ ")"], none, true⟩
    | .error _ => ⟨none, [], none, true⟩

/-- C8 counterexample: with no PID file, `stop_zrok_access` prints no
message at all — in particular nothing containing "nothing to stop", so
the claimed report does not exist in the code. -/
theorem stop_zrok_access_no_report_counterexample :
    (stop_zrok_access none (fun _ => false)).messages = [] ∧
    (stop_zrok_access none (fun _ => false)).messages.all
      (fun m => !(pyIn m "nothing to stop")) = true := by
  exact ⟨rfl, rfl⟩

/-- C8 amended: `stop_zrok_access` is idempotent and never raises
(`ProcessLookupError` and `ValueError` are both caught): the pkill sweep
always runs and the PID file always ends up absent; with no PID file it
silently does nothing else (no message is printed); a dead PID or
unparsable contents are swallowed; a live PID receives SIGTERM. -/
theorem stop_zrok_access_idempotent_amended :
    (∀ (pidFile : Option String) (alive : Int → Bool),
      (stop_zrok_access pidFile alive).pkillIssued = true ∧
      (stop_zrok_access pidFile alive).pidFileAfter = none) ∧
    (∀ alive : Int → Bool,
      stop_zrok_access none alive = ⟨none, [], none, true⟩) ∧
    (∀ (contents : String) (alive : Int → Bool) (pid : Int),
      pyInt contents = .ok pid → alive pid = false →
      stop_zrok_access (some contents) alive = ⟨none, [], none, true⟩) ∧
    (∀ (contents : String) (alive : Int → Bool) (pid : Int),
      pyInt contents = .ok pid → alive pid = true →
      stop_zrok_access (some contents) alive =
        ⟨some pid, ["Stopped zrok access (PID: " ++ toString pid ++ ")"], none, true⟩) ∧
    (∀ (contents : String) (alive : Int → Bool),
      pyInt contents = .error .valueError →
      stop_zrok_access (some contents) alive = ⟨none, [], none, true⟩) := by
  refine ⟨?_, ?_, ?_, ?_, ?_⟩
  · intro pidFile alive
    cases pidFile with
    | none => exact ⟨rfl, rfl⟩
    | some contents =>
      unfold stop_zrok_access
      cases h : (pyInt contents).bind
          (fun pid => (osKill alive pid).map (fun _ => pid)) with
      | ok pid => simp [h]
      | error e => simp [h]
  · intro alive; rfl
  · intro contents alive pid hp ha
    simp [stop_zrok_access, hp, osKill, ha, Except.bind, Except.map]
  · intro contents alive pid hp ha
    simp [stop_zrok_access, hp, osKill, ha, Except.bind, Except.map]
  · intro contents alive hp
    simp [stop_zrok_access, hp, Except.bind]

/-- Witness for the amended C8 theorem: no PID file; a dead PID 123; a
live PID 123; unparsable contents. -/
theorem stop_zrok_access_idempotent_amended_witness :
    ((stop_zrok_access (some "123") (fun _ => false)).pkillIssued = true ∧
      (stop_zrok_access (some "123") (fun _ => false)).pidFileAfter = none) ∧
    stop_zrok_access none (fun _ => false) = ⟨none, [], none, true⟩ ∧
    stop_zrok_access (some "123") (fun _ => false) = ⟨none, [], none, true⟩ ∧
    stop_zrok_access (some "123") (fun _ => true) =
      ⟨some 123, ["Stopped zrok access (PID: " ++ toString (123 : Int) ++ ")"], none, true⟩ ∧
    stop_zrok_access (some "not a pid") (fun _ => false) = ⟨none, [], none, true⟩ := by
  refine ⟨stop_zrok_access_idempotent_amended.1 (some "123") (fun _ => false),
    stop_zrok_access_idempotent_amended.2.1 (fun _ => false),
    stop_zrok_access_idempotent_amended.2.2.1 "123" (fun _ => false) 123 rfl rfl,
    stop_zrok_access_idempotent_amended.2.2.2.1 "123" (fun _ => true) 123 rfl rfl,
    stop_zrok_access_idempotent_amended.2.2.2.2 "not a pid" (fun _ => false) rfl⟩

/-! ## C10 — `connect_private` (src/local/connect.py:200-220)

```python
def connect_private(share_token, password=None, use_key=False, vscode=False, local_port=9191):
    if not check_dependencies(include_zrok=True):
        return
    zrok_process = start_zrok_access(share_token, local_port)
    try:
        if vscode:
            update_ssh_config("localhost", local_port, "kaggle")
            open_vscode("localhost", local_port)
        else:
            connect_ssh("localhost", local_port, password, use_key)
    finally:
        stop_zrok_access()
```
-/

/-- Events along a `connect_private` run. -/
inductive Ev where
  | depsChecked
  | startedAccess
  | bodyDone
  | stoppedAccess
  deriving Repr, DecidableEq

/-- A run fragment: the events it emitted and whether it ended by
raising. -/
structure Trace where
  events : List Ev
  raised : Bool
  deriving Repr, DecidableEq

/-- Sequencing: a raise skips the continuation. -/
def seqT (a b : Trace) : Trace :=
  if a.raised then a else ⟨a.events ++ b.events, b.raised⟩

/-- Python `try ... finally`: the final block always runs; the body's
exception (or the final block's own) then propagates. -/
def tryFinallyT (body fin : Trace) : Trace :=
  ⟨body.events ++ fin.events, body.raised || fin.raised⟩

/-- Function `connect_private`: dependency check (early return when it
fails), `start_zrok_access`, then the SSH/VS-Code body inside `try` with
`stop_zrok_access()` in the `finally` block.  `startRaises` and
`bodyRaises` say whether those steps raise. -/
def connect_private (depsOk startRaises bodyRaises : Bool) : Trace :=
  if !depsOk then ⟨[.depsChecked], false⟩
  else
    seqT ⟨[.depsChecked], false⟩
      (seqT (if startRaises then ⟨[], true⟩ else ⟨[.startedAccess], false⟩)
        (tryFinallyT (if bodyRaises then ⟨[], true⟩ else ⟨[.bodyDone], false⟩)
          ⟨[.stoppedAccess], false⟩))

/-- C10: whenever `start_zrok_access` has returned (the `startedAccess`
event is in the trace), `stop_zrok_access` runs before `connect_private`
finishes — also when the body raises, because it sits in a `finally`
block — and the body's exception still propagates. -/
theorem connect_private_always_stops_after_start :
    ∀ depsOk startRaises bodyRaises : Bool,
      Ev.startedAccess ∈ (connect_private depsOk startRaises bodyRaises).events →
      (connect_private depsOk startRaises bodyRaises).events =
        [Ev.depsChecked, Ev.startedAccess] ++
          (if bodyRaises then [] else [Ev.bodyDone]) ++ [Ev.stoppedAccess] ∧
      (connect_private depsOk startRaises bodyRaises).raised = bodyRaises := by
  decide

/-- Witness for C10 with dependencies present, a successful start, and a
raising body: teardown still runs and the exception propagates. -/
theorem connect_private_always_stops_after_start_witness :
    (connect_private true false true).events =
      [Ev.depsChecked, Ev.startedAccess] ++
        (if true then [] else [Ev.bodyDone]) ++ [Ev.stoppedAccess] ∧
    (connect_private true false true).raised = true :=
  connect_private_always_stops_after_start true false true (by decide)

end KaggleZrok
